import Mathlib

/-
Verification of the PathoAi API backend against its specification.

The embedding models the routers in `app/routers/` over explicit state:
the Mongo `UsageLimit` collection is a list of `UsageDoc`, the `Analysis`
collection a list of `AnalysisDoc`.  Network effects (the Mongo driver,
the two AI providers, the wall clock) are passed in as explicit data:
`today` is the server-local date already formatted `DD-MM-YYYY`, `now`
the submission timestamp, `provider` the outcome of the external call
(parsed JSON object or the raised exception's message), and the Booleans
`insertFails` / `incrementFails` whether the corresponding store
operation raises.
-/

namespace PathoAi

/-- The model tier flag: `JR` (OpenAI variant) or `SR` (Gemini variant). -/
inductive Tier where
  | JR
  | SR
deriving DecidableEq, Repr

/-- A document of the `UsageLimit` collection.  The router reads the four
counter fields with `.get(field, 0)`, so each may be absent: we model them
as `Option Int`. -/
structure UsageDoc where
  date : String
  jrUsed : Option Int
  jrLimit : Option Int
  srUsed : Option Int
  srLimit : Option Int
deriving DecidableEq, Repr

/-- The feedback sub-object `{rating, notes}` set by `submit_feedback`. -/
structure Feedback where
  rating : Int
  notes : String
deriving DecidableEq, Repr

/-- The four tier-specific result fields merged into the analysis document
after the provider call.  Each is read from the provider's JSON with
`.get(key)`, hence `Option`. -/
structure ResultFields where
  observation : Option String
  preliminaryDiagnosis : Option String
  confidenceLevel : Option String
  disclaimer : Option String
deriving DecidableEq, Repr

/-- A document of the `Analysis` collection.  `id` is the store-assigned
`_id` rendered as a string.  `result` is `some` exactly when the
provider-result keys were merged into the document before insertion. -/
structure AnalysisDoc where
  id : String
  slideImage : String
  organ : String
  clinicalContext : String
  model : Tier
  createdAt : Nat
  result : Option ResultFields
  feedback : Option Feedback
deriving DecidableEq, Repr

/-- An error response: HTTP status code plus detail message. -/
structure Err where
  status : Nat
  detail : String
deriving DecidableEq, Repr

/-- The uniform `ApiResponse` success envelope `{status, message, data}`. -/
structure Envelope (α : Type) where
  status : Bool
  message : String
  data : α
deriving DecidableEq, Repr

/-- The database handle's state: the two collections. -/
structure DBState where
  usage : List UsageDoc
  analysis : List AnalysisDoc
deriving DecidableEq, Repr

/-- `collection.find_one({"date": today_str})`: first document whose
`date` field equals today's formatted date. -/
def findOne (usage : List UsageDoc) (today : String) : Option UsageDoc :=
  usage.find? (fun d => d.date == today)

/-- `check_and_get_usage_limit` (analyze.py lines 27-72).  When no
document exists for today, the source dereferences `None`
(`usage_doc.get(...)` raises `AttributeError`), which the generic
`except Exception` handler maps to a 500 `"Usage limit check failed"`
response.  When the document exists, the per-tier `used >= limit`
comparison (fields defaulting to 0) yields a 429. -/
def check_and_get_usage_limit (usage : List UsageDoc) (today : String)
    (model : Tier) : Except Err UsageDoc :=
  match findOne usage today with
  | none => .error ⟨500, "Usage limit check failed"⟩
  | some d =>
    match model with
    | .JR =>
      if d.jrUsed.getD 0 ≥ d.jrLimit.getD 0 then
        .error ⟨429, "JR model usage limit exceeded for today"⟩
      else .ok d
    | .SR =>
      if d.srUsed.getD 0 ≥ d.srLimit.getD 0 then
        .error ⟨429, "SR model usage limit exceeded for today"⟩
      else .ok d

/-- The `$inc` update document applied to a matched usage record:
`{"$inc": {"jrUsed": 1}}` for JR, `{"$inc": {"srUsed": 1}}` for SR.
Mongo's `$inc` creates an absent field with the increment value, which
`Option.getD 0` captures. -/
def inc_tier_update (d : UsageDoc) : Tier → UsageDoc
  | .JR => { d with jrUsed := some (d.jrUsed.getD 0 + 1) }
  | .SR => { d with srUsed := some (d.srUsed.getD 0 + 1) }

/-- `collection.update_one({"date": today_str}, {"$inc": ...})`: applies
the increment to the first matching document only; a miss is a no-op. -/
def update_one_usage : List UsageDoc → String → Tier → List UsageDoc
  | [], _, _ => []
  | d :: rest, today, tier =>
    if d.date == today then inc_tier_update d tier :: rest
    else d :: update_one_usage rest today tier

/-- `increment_usage_count` (analyze.py lines 75-98).  A raising update
is swallowed by the `except Exception` handler, which only prints a
warning: the collection is left unchanged and nothing propagates. -/
def increment_usage_count (usage : List UsageDoc) (today : String)
    (model : Tier) (fails : Bool) : List UsageDoc :=
  if fails then usage else update_one_usage usage today model

/-- `result_data.get(key)` on the parsed provider JSON object. -/
def jsonGet (rd : List (String × String)) (k : String) : Option String :=
  (rd.find? (fun p => p.1 == k)).map Prod.snd

/-- The `analysis_doc.update({...})` merge of the four provider result
fields (analyze.py lines 265-270 and 273-278). -/
def mergeResult (rd : List (String × String)) : ResultFields :=
  ⟨jsonGet rd "observation", jsonGet rd "preliminaryDiagnosis",
   jsonGet rd "confidenceLevel", jsonGet rd "disclaimer"⟩

/-- Outcome of one `POST /analyze` request: the response (success
envelope or HTTP error), the database state afterwards, and how many
times the provider adapter was invoked. -/
structure AnalyzeOutcome where
  response : Except Err (Envelope AnalysisDoc)
  db : DBState
  providerCalls : Nat

/-- `analyze_slide` (analyze.py lines 212-294).  `dbConnected` models the
`get_database() is None` check; `provider` the dispatched adapter call
(`call_openai_analysis` for JR, `call_gemini_25_pro_analysis` for SR),
returning the parsed JSON object or the raised exception's message —
both a transport failure and `json.loads` rejecting the cleaned text
land in the workflow's generic `except Exception` handler, which answers
500 `"Database operation failed: ..."`.  `newId` is the store-assigned
`inserted_id` as a string. -/
def analyze_slide (dbConnected : Bool) (st : DBState) (today : String)
    (now : Nat) (imageBase64 organ clinicalContext : String) (model : Tier)
    (provider : Tier → Except String (List (String × String)))
    (newId : String) (insertFails incrementFails : Bool) : AnalyzeOutcome :=
  if dbConnected then
    match check_and_get_usage_limit st.usage today model with
    | .error e => ⟨.error e, st, 0⟩
    | .ok _ =>
      match provider model with
      | .error exc => ⟨.error ⟨500, "Database operation failed: " ++ exc⟩, st, 1⟩
      | .ok resultData =>
        if insertFails then
          ⟨.error ⟨500, "Database operation failed: insert_one"⟩, st, 1⟩
        else
          let doc : AnalysisDoc :=
            { id := newId, slideImage := imageBase64, organ := organ,
              clinicalContext := clinicalContext, model := model,
              createdAt := now, result := some (mergeResult resultData),
              feedback := none }
          ⟨.ok ⟨true, "Analysis stored successfully", doc⟩,
           ⟨increment_usage_count st.usage today model incrementFails,
            st.analysis ++ [doc]⟩, 1⟩
  else ⟨.error ⟨500, "Database client not initialized"⟩, st, 0⟩

/-- Per-tier view of the `used` counter field. -/
def usedOf (d : UsageDoc) : Tier → Option Int
  | .JR => d.jrUsed
  | .SR => d.srUsed

/-- The other tier's `used` counter field. -/
def otherUsedOf (d : UsageDoc) : Tier → Option Int
  | .JR => d.srUsed
  | .SR => d.jrUsed

/-- The per-tier `used` value as read by the router (default 0). -/
def tierUsed (d : UsageDoc) (t : Tier) : Int := (usedOf d t).getD 0

/-- The per-tier `limit` value as read by the router (default 0). -/
def tierLimit (d : UsageDoc) : Tier → Int
  | .JR => d.jrLimit.getD 0
  | .SR => d.srLimit.getD 0

/-- The 429 detail message per tier. -/
def quota_detail : Tier → String
  | .JR => "JR model usage limit exceeded for today"
  | .SR => "SR model usage limit exceeded for today"

/-- Characters removed by Python's `str.strip()` (ASCII whitespace). -/
def isPySpace (c : Char) : Bool :=
  c = ' ' || c = '\t' || c = '\n' || c = '\r' || c = '\x0B' || c = '\x0C'

/-- Python `text.strip()`: drop leading and trailing whitespace. -/
def pyStrip (s : String) : String :=
  ⟨((s.toList.dropWhile isPySpace).reverse.dropWhile isPySpace).reverse⟩

/-- The response-cleaning block of `call_openai_analysis` (analyze.py
lines 148-154): strip; when the text starts with a triple-backtick
fence, delete every occurrence of the fenced-json marker and of the bare
fence (Python `str.replace` replaces all occurrences), then strip
again. -/
def clean_openai_response (responseText : String) : String :=
  let cleanText := pyStrip responseText
  if cleanText.startsWith "```" then
    pyStrip ((cleanText.replace "```json" "").replace "```" "")
  else cleanText

/-- The response-cleaning block of `call_gemini_25_pro_analysis`
(analyze.py lines 197-203), textually the same pipeline as the OpenAI
variant's. -/
def clean_gemini_response (responseText : String) : String :=
  let cleanText := pyStrip responseText
  if cleanText.startsWith "```" then
    pyStrip ((cleanText.replace "```json" "").replace "```" "")
  else cleanText

/-- `ObjectId(id)` on a string succeeds exactly for 24-character hex
strings; `submit_feedback` maps the raised `InvalidId` to a 400. -/
def isValidObjectId (s : String) : Bool :=
  s.length = 24 && s.toList.all (fun c =>
    c.isDigit || ('a' ≤ c && c ≤ 'f') || ('A' ≤ c && c ≤ 'F'))

/-- `FeedbackResponse` (models/feedback.py): the echoed id, rating and
notes — the workflow does not re-read the stored document. -/
structure FeedbackResponse where
  id : String
  rating : Int
  notes : String
deriving DecidableEq, Repr

/-- `collection.update_one({"_id": analysis_id}, {"$set": {"feedback":
{rating, notes}}})`: sets the feedback sub-object on the first document
with that id, and reports `matched_count` (0 or 1). -/
def update_one_feedback : List AnalysisDoc → String → Feedback →
    List AnalysisDoc × Nat
  | [], _, _ => ([], 0)
  | d :: rest, id, fb =>
    if d.id = id then ({ d with feedback := some fb } :: rest, 1)
    else
      let r := update_one_feedback rest id fb
      (d :: r.1, r.2)

/-- Outcome of one `POST /feedback` request: the response, the
`Analysis` collection afterwards, and how many store update operations
were issued. -/
structure FeedbackOutcome where
  response : Except Err (Envelope FeedbackResponse)
  analysis : List AnalysisDoc
  storeOps : Nat

/-- `submit_feedback` (feedback.py lines 18-70).  A malformed id fails
with 400 before any store access.  The `matched_count == 0` branch
raises `HTTPException(404, "Analysis not found")` INSIDE the `try`
block, and the `except Exception` clause catches every exception —
`HTTPException` included, there is no `except HTTPException: raise`
here — so the request actually answers 500 with detail
`"Database operation failed: 404: Analysis not found"` (the formatted
`str(exc)` of the swallowed 404). -/
def submit_feedback (dbConnected : Bool) (docs : List AnalysisDoc)
    (id : String) (rating : Int) (notes : String) : FeedbackOutcome :=
  if dbConnected then
    if isValidObjectId id then
      let r := update_one_feedback docs id ⟨rating, notes⟩
      if r.2 = 0 then
        ⟨.error ⟨500, "Database operation failed: 404: Analysis not found"⟩,
         r.1, 1⟩
      else
        ⟨.ok ⟨true, "Feedback submitted successfully", ⟨id, rating, notes⟩⟩,
         r.1, 1⟩
    else ⟨.error ⟨400, "Invalid analysis ID format"⟩, docs, 0⟩
  else ⟨.error ⟨500, "Database client not initialized"⟩, docs, 0⟩

/-- `HistoryItem` (history.py lines 14-25). -/
structure HistoryItem where
  id : String
  slideImage : String
  organ : String
  clinicalContext : String
  model : Tier
  observation : Option String
  preliminaryDiagnosis : Option String
  confidenceLevel : Option String
  disclaimer : Option String
  createdAt : Option String
  feedback : Option Feedback
deriving DecidableEq, Repr

/-- The per-document projection built inside `get_history` (history.py
lines 48-60): flat-key reads of the merged result fields come back as
`None` when the provider merge never happened, and `feedback` is read
with default `None`. -/
def doc_to_history_item (d : AnalysisDoc) : HistoryItem :=
  { id := d.id, slideImage := d.slideImage, organ := d.organ,
    clinicalContext := d.clinicalContext, model := d.model,
    observation := d.result.bind ResultFields.observation,
    preliminaryDiagnosis := d.result.bind ResultFields.preliminaryDiagnosis,
    confidenceLevel := d.result.bind ResultFields.confidenceLevel,
    disclaimer := d.result.bind ResultFields.disclaimer,
    createdAt := some (toString d.createdAt),
    feedback := d.feedback }

/-- `get_history` (history.py lines 31-69): every `Analysis` document in
natural order, projected, in the success envelope. -/
def get_history (dbConnected : Bool) (docs : List AnalysisDoc) :
    Except Err (Envelope (List HistoryItem)) :=
  if dbConnected then
    .ok ⟨true, "History retrieved successfully", docs.map doc_to_history_item⟩
  else .error ⟨500, "Database client not initialized"⟩

/-- A concrete stored analysis document used to instantiate theorems. -/
def sampleDoc : AnalysisDoc :=
  { id := "0123456789abcdef01234567", slideImage := "img", organ := "liver",
    clinicalContext := "suspected cirrhosis", model := Tier.JR,
    createdAt := 0, result := none, feedback := none }

/-- When no `UsageLimit` document exists for today, the check answers
the 500 error (the `None` dereference caught by the generic handler). -/
theorem check_none (usage : List UsageDoc) (today : String) (tier : Tier)
    (h : findOne usage today = none) :
    check_and_get_usage_limit usage today tier =
      .error ⟨500, "Usage limit check failed"⟩ := by
  unfold check_and_get_usage_limit
  rw [h]

/-- When today's document exists and the selected tier is at or over its
limit, the check answers the 429 error. -/
theorem check_quota_exceeded (usage : List UsageDoc) (today : String)
    (tier : Tier) (d : UsageDoc) (hfind : findOne usage today = some d)
    (hq : tierLimit d tier ≤ tierUsed d tier) :
    check_and_get_usage_limit usage today tier =
      .error ⟨429, quota_detail tier⟩ := by
  unfold check_and_get_usage_limit
  rw [hfind]
  cases tier <;>
    simp only [tierUsed, tierLimit, usedOf, quota_detail] at hq ⊢ <;>
    rw [if_pos hq]

/-- When today's document exists and the selected tier is under its
limit, the check returns the document. -/
theorem check_ok (usage : List UsageDoc) (today : String) (tier : Tier)
    (d : UsageDoc) (hfind : findOne usage today = some d)
    (hq : tierUsed d tier < tierLimit d tier) :
    check_and_get_usage_limit usage today tier = .ok d := by
  unfold check_and_get_usage_limit
  rw [hfind]
  cases tier <;>
    simp only [tierUsed, tierLimit, usedOf] at hq ⊢ <;>
    rw [if_neg (not_le.mpr hq)]

/-- C10: when no UsageLimitRecord exists for today's date, the quota
check fails with the 500-equivalent "Usage limit check failed" error,
the submission is denied with that error (not 429), the provider is
never invoked, and the database state is unchanged. -/
theorem absent_usage_record_denies_request
    (st : DBState) (today : String) (now : Nat)
    (img organ cc : String) (tier : Tier)
    (provider : Tier → Except String (List (String × String)))
    (newId : String) (insF incF : Bool)
    (h : findOne st.usage today = none) :
    analyze_slide true st today now img organ cc tier provider newId
        insF incF =
      ⟨.error ⟨500, "Usage limit check failed"⟩, st, 0⟩ := by
  simp [analyze_slide, check_none st.usage today tier h]

/-- C10 witness: concrete denial with an empty UsageLimit collection. -/
theorem absent_usage_record_denies_request_witness :
    findOne ([] : List UsageDoc) "12-10-2026" = none ∧
    analyze_slide true ⟨[], []⟩ "12-10-2026" 0 "img" "liver" "ctx" Tier.JR
        (fun _ => Except.error "boom") "id1" false false =
      ⟨.error ⟨500, "Usage limit check failed"⟩, ⟨[], []⟩, 0⟩ :=
  ⟨rfl, absent_usage_record_denies_request ⟨[], []⟩ "12-10-2026" 0 "img"
    "liver" "ctx" Tier.JR (fun _ => Except.error "boom") "id1" false false
    rfl⟩

/-- C1: when today's UsageLimitRecord exists and the selected tier's
used counter has reached its limit, the workflow fails with the
429 QuotaExceeded error, the provider adapter is invoked zero times, and
the database state is unchanged — no AnalysisRecord persisted, neither
used counter incremented. -/
theorem quota_exceeded_blocks_provider_and_state
    (st : DBState) (today : String) (now : Nat)
    (img organ cc : String) (tier : Tier)
    (provider : Tier → Except String (List (String × String)))
    (newId : String) (insF incF : Bool) (d : UsageDoc)
    (hfind : findOne st.usage today = some d)
    (hq : tierLimit d tier ≤ tierUsed d tier) :
    analyze_slide true st today now img organ cc tier provider newId
        insF incF =
      ⟨.error ⟨429, quota_detail tier⟩, st, 0⟩ := by
  simp [analyze_slide, check_quota_exceeded st.usage today tier d hfind hq]

/-- C1 witness: JR at 5/5 today is rejected with 429 and no effect. -/
theorem quota_exceeded_blocks_provider_and_state_witness :
    findOne [⟨"12-10-2026", some 5, some 5, none, none⟩] "12-10-2026" =
      some ⟨"12-10-2026", some 5, some 5, none, none⟩ ∧
    tierLimit ⟨"12-10-2026", some 5, some 5, none, none⟩ Tier.JR ≤
      tierUsed ⟨"12-10-2026", some 5, some 5, none, none⟩ Tier.JR ∧
    analyze_slide true ⟨[⟨"12-10-2026", some 5, some 5, none, none⟩], []⟩
        "12-10-2026" 0 "img" "liver" "ctx" Tier.JR
        (fun _ => Except.error "boom") "id1" false false =
      ⟨.error ⟨429, quota_detail Tier.JR⟩,
       ⟨[⟨"12-10-2026", some 5, some 5, none, none⟩], []⟩, 0⟩ :=
  ⟨rfl, by decide,
   quota_exceeded_blocks_provider_and_state
     ⟨[⟨"12-10-2026", some 5, some 5, none, none⟩], []⟩ "12-10-2026" 0
     "img" "liver" "ctx" Tier.JR (fun _ => Except.error "boom") "id1"
     false false ⟨"12-10-2026", some 5, some 5, none, none⟩ rfl
     (by decide)⟩

/-- C2: for a submission under quota whose provider call succeeds, the
persisted record's four result fields are exactly the adapter's fields
for the selected tier, the response is the success envelope, its record
carries the store-assigned identifier, and the record is appended to the
Analysis collection. -/
theorem success_persists_adapter_fields
    (st : DBState) (today : String) (now : Nat)
    (img organ cc : String) (tier : Tier)
    (provider : Tier → Except String (List (String × String)))
    (newId : String) (incF : Bool) (d : UsageDoc)
    (rd : List (String × String))
    (hfind : findOne st.usage today = some d)
    (hq : tierUsed d tier < tierLimit d tier)
    (hp : provider tier = .ok rd) :
    ∃ doc : AnalysisDoc,
      (analyze_slide true st today now img organ cc tier provider newId
          false incF).response =
        .ok ⟨true, "Analysis stored successfully", doc⟩ ∧
      doc.id = newId ∧
      doc.result = some ⟨jsonGet rd "observation",
        jsonGet rd "preliminaryDiagnosis", jsonGet rd "confidenceLevel",
        jsonGet rd "disclaimer"⟩ ∧
      (analyze_slide true st today now img organ cc tier provider newId
          false incF).db.analysis = st.analysis ++ [doc] := by
  refine ⟨{ id := newId, slideImage := img, organ := organ,
            clinicalContext := cc, model := tier, createdAt := now,
            result := some (mergeResult rd), feedback := none },
          ?_, rfl, rfl, ?_⟩ <;>
    simp [analyze_slide, check_ok st.usage today tier d hfind hq, hp]

/-- C2 witness: a concrete under-quota JR submission persists the
adapter's fields under the store-assigned id. -/
theorem success_persists_adapter_fields_witness :
    findOne [⟨"12-10-2026", some 4, some 5, none, none⟩] "12-10-2026" =
      some ⟨"12-10-2026", some 4, some 5, none, none⟩ ∧
    tierUsed ⟨"12-10-2026", some 4, some 5, none, none⟩ Tier.JR <
      tierLimit ⟨"12-10-2026", some 4, some 5, none, none⟩ Tier.JR ∧
    ∃ doc : AnalysisDoc,
      (analyze_slide true ⟨[⟨"12-10-2026", some 4, some 5, none, none⟩], []⟩
          "12-10-2026" 7 "img" "liver" "ctx" Tier.JR
          (fun _ => Except.ok [("observation", "obs"), ("disclaimer", "dd")])
          "id1" false false).response =
        .ok ⟨true, "Analysis stored successfully", doc⟩ ∧
      doc.id = "id1" ∧
      doc.result = some ⟨jsonGet [("observation", "obs"), ("disclaimer", "dd")] "observation",
        jsonGet [("observation", "obs"), ("disclaimer", "dd")] "preliminaryDiagnosis",
        jsonGet [("observation", "obs"), ("disclaimer", "dd")] "confidenceLevel",
        jsonGet [("observation", "obs"), ("disclaimer", "dd")] "disclaimer"⟩ ∧
      (analyze_slide true ⟨[⟨"12-10-2026", some 4, some 5, none, none⟩], []⟩
          "12-10-2026" 7 "img" "liver" "ctx" Tier.JR
          (fun _ => Except.ok [("observation", "obs"), ("disclaimer", "dd")])
          "id1" false false).db.analysis = [] ++ [doc] :=
  ⟨rfl, by decide,
   success_persists_adapter_fields
     ⟨[⟨"12-10-2026", some 4, some 5, none, none⟩], []⟩ "12-10-2026" 7
     "img" "liver" "ctx" Tier.JR
     (fun _ => Except.ok [("observation", "obs"), ("disclaimer", "dd")])
     "id1" false ⟨"12-10-2026", some 4, some 5, none, none⟩
     [("observation", "obs"), ("disclaimer", "dd")] rfl (by decide) rfl⟩

/-- C3: a persisted record's result fields are populated if and only if
the provider call succeeded before persistence.  When the provider call
fails the workflow exits with an error and the database state — both the
Analysis collection and the usage counters — is unchanged; conversely,
any document the workflow adds to the Analysis collection carries the
merged fields of a successful provider call. -/
theorem result_fields_iff_provider_success
    (st : DBState) (today : String) (now : Nat)
    (img organ cc : String) (tier : Tier)
    (provider : Tier → Except String (List (String × String)))
    (newId : String) (insF incF : Bool) :
    (∀ exc, provider tier = .error exc →
      (∃ e, (analyze_slide true st today now img organ cc tier provider
          newId insF incF).response = .error e) ∧
      (analyze_slide true st today now img organ cc tier provider newId
          insF incF).db = st) ∧
    (∀ doc ∈ (analyze_slide true st today now img organ cc tier provider
        newId insF incF).db.analysis, doc ∉ st.analysis →
      ∃ rd, provider tier = .ok rd ∧ doc.result = some (mergeResult rd)) := by
  constructor
  · intro exc hp
    rcases hchk : check_and_get_usage_limit st.usage today tier with e | d
    · simp [analyze_slide, hchk]
    · simp [analyze_slide, hchk, hp]
  · intro doc hmem hnot
    rcases hchk : check_and_get_usage_limit st.usage today tier with e | d
    · simp [analyze_slide, hchk] at hmem
      exact absurd hmem hnot
    · rcases hprov : provider tier with exc | rd
      · simp [analyze_slide, hchk, hprov] at hmem
        exact absurd hmem hnot
      · rcases hins : insF with _ | _
        · simp [analyze_slide, hchk, hprov, hins] at hmem
          rcases hmem with h | rfl
          · exact absurd h hnot
          · exact ⟨rd, rfl, rfl⟩
        · simp [analyze_slide, hchk, hprov, hins] at hmem
          exact absurd hmem hnot

/-- C3 witness: a failing provider call leaves the state unchanged and
yields an error response. -/
theorem result_fields_iff_provider_success_witness :
    (fun _ => Except.error "ValueError"
      : Tier → Except String (List (String × String))) Tier.JR =
      Except.error "ValueError" ∧
    ((∃ e, (analyze_slide true
        ⟨[⟨"12-10-2026", some 0, some 5, none, none⟩], []⟩ "12-10-2026" 0
        "img" "liver" "ctx" Tier.JR (fun _ => Except.error "ValueError")
        "id1" false false).response = .error e) ∧
     (analyze_slide true ⟨[⟨"12-10-2026", some 0, some 5, none, none⟩], []⟩
        "12-10-2026" 0 "img" "liver" "ctx" Tier.JR
        (fun _ => Except.error "ValueError") "id1" false false).db =
       ⟨[⟨"12-10-2026", some 0, some 5, none, none⟩], []⟩) :=
  ⟨rfl,
   (result_fields_iff_provider_success
     ⟨[⟨"12-10-2026", some 0, some 5, none, none⟩], []⟩ "12-10-2026" 0
     "img" "liver" "ctx" Tier.JR (fun _ => Except.error "ValueError")
     "id1" false false).1 "ValueError" rfl⟩

/-- C6: when the usage increment fails after a successful analysis, the
failure is swallowed — the workflow still answers the success envelope
with the persisted record, the record stays appended to the Analysis
collection, and the usage counters are exactly as before (no retry, no
rollback). -/
theorem increment_failure_swallowed
    (st : DBState) (today : String) (now : Nat)
    (img organ cc : String) (tier : Tier)
    (provider : Tier → Except String (List (String × String)))
    (newId : String) (d : UsageDoc) (rd : List (String × String))
    (hfind : findOne st.usage today = some d)
    (hq : tierUsed d tier < tierLimit d tier)
    (hp : provider tier = .ok rd) :
    ∃ doc : AnalysisDoc,
      analyze_slide true st today now img organ cc tier provider newId
          false true =
        ⟨.ok ⟨true, "Analysis stored successfully", doc⟩,
         ⟨st.usage, st.analysis ++ [doc]⟩, 1⟩ :=
  ⟨{ id := newId, slideImage := img, organ := organ, clinicalContext := cc,
     model := tier, createdAt := now, result := some (mergeResult rd),
     feedback := none },
   by simp [analyze_slide, check_ok st.usage today tier d hfind hq, hp,
            increment_usage_count]⟩

/-- C6 witness: increment failure still answers success and leaves the
usage counters untouched while the record stays persisted. -/
theorem increment_failure_swallowed_witness :
    findOne [⟨"12-10-2026", some 4, some 5, none, none⟩] "12-10-2026" =
      some ⟨"12-10-2026", some 4, some 5, none, none⟩ ∧
    tierUsed ⟨"12-10-2026", some 4, some 5, none, none⟩ Tier.JR <
      tierLimit ⟨"12-10-2026", some 4, some 5, none, none⟩ Tier.JR ∧
    ∃ doc : AnalysisDoc,
      analyze_slide true ⟨[⟨"12-10-2026", some 4, some 5, none, none⟩], []⟩
          "12-10-2026" 7 "img" "liver" "ctx" Tier.JR
          (fun _ => Except.ok [("observation", "obs")]) "id1" false true =
        ⟨.ok ⟨true, "Analysis stored successfully", doc⟩,
         ⟨[⟨"12-10-2026", some 4, some 5, none, none⟩], [] ++ [doc]⟩, 1⟩ :=
  ⟨rfl, by decide,
   increment_failure_swallowed
     ⟨[⟨"12-10-2026", some 4, some 5, none, none⟩], []⟩ "12-10-2026" 7
     "img" "liver" "ctx" Tier.JR (fun _ => Except.ok [("observation", "obs")])
     "id1" ⟨"12-10-2026", some 4, some 5, none, none⟩
     [("observation", "obs")] rfl (by decide) rfl⟩

/-- `update_one` on the usage collection rewrites exactly the first
document whose date matches. -/
theorem update_one_usage_append
    (pre post : List UsageDoc) (d : UsageDoc) (today : String) (tier : Tier)
    (hd : d.date = today) (hpre : ∀ e ∈ pre, e.date ≠ today) :
    update_one_usage (pre ++ d :: post) today tier =
      pre ++ inc_tier_update d tier :: post := by
  induction pre with
  | nil => simp [update_one_usage, hd]
  | cons a rest ih =>
    have ha : (a.date == today) = false :=
      beq_eq_false_iff_ne.mpr (hpre a (List.mem_cons_self a rest))
    simp only [List.cons_append, update_one_usage, ha, Bool.false_eq_true,
      if_false, List.cons.injEq, true_and]
    exact ih (fun e he => hpre e (List.mem_cons_of_mem a he))

/-- C7: a successful `incrementUsage(tier)` on a day whose record exists
adds exactly one to the matching used counter and changes nothing else:
the date and both limits are unchanged, the other tier's used field is
unchanged, the counter does not decrease, and every other document of
the collection is untouched. -/
theorem increment_usage_adds_one_and_frames
    (pre post : List UsageDoc) (d : UsageDoc) (today : String) (tier : Tier)
    (hd : d.date = today) (hpre : ∀ e ∈ pre, e.date ≠ today) :
    ∃ d2 : UsageDoc,
      increment_usage_count (pre ++ d :: post) today tier false =
        pre ++ d2 :: post ∧
      d2.date = d.date ∧ d2.jrLimit = d.jrLimit ∧ d2.srLimit = d.srLimit ∧
      usedOf d2 tier = some (tierUsed d tier + 1) ∧
      otherUsedOf d2 tier = otherUsedOf d tier ∧
      tierUsed d tier ≤ tierUsed d2 tier := by
  refine ⟨inc_tier_update d tier, ?_, ?_, ?_, ?_, ?_, ?_, ?_⟩
  · simpa [increment_usage_count] using
      update_one_usage_append pre post d today tier hd hpre
  all_goals
    cases tier <;> simp [inc_tier_update, usedOf, otherUsedOf, tierUsed]

/-- C7 witness: JR at 2 used becomes 3 used with all other fields kept. -/
theorem increment_usage_adds_one_and_frames_witness :
    (⟨"12-10-2026", some 2, some 5, some 7, some 9⟩ : UsageDoc).date =
      "12-10-2026" ∧
    (∀ e ∈ ([] : List UsageDoc), e.date ≠ "12-10-2026") ∧
    ∃ d2 : UsageDoc,
      increment_usage_count
          ([] ++ ⟨"12-10-2026", some 2, some 5, some 7, some 9⟩ :: [])
          "12-10-2026" Tier.JR false = [] ++ d2 :: [] ∧
      d2.date = (⟨"12-10-2026", some 2, some 5, some 7, some 9⟩ : UsageDoc).date ∧
      d2.jrLimit = (⟨"12-10-2026", some 2, some 5, some 7, some 9⟩ : UsageDoc).jrLimit ∧
      d2.srLimit = (⟨"12-10-2026", some 2, some 5, some 7, some 9⟩ : UsageDoc).srLimit ∧
      usedOf d2 Tier.JR =
        some (tierUsed ⟨"12-10-2026", some 2, some 5, some 7, some 9⟩ Tier.JR + 1) ∧
      otherUsedOf d2 Tier.JR =
        otherUsedOf ⟨"12-10-2026", some 2, some 5, some 7, some 9⟩ Tier.JR ∧
      tierUsed ⟨"12-10-2026", some 2, some 5, some 7, some 9⟩ Tier.JR ≤
        tierUsed d2 Tier.JR :=
  ⟨rfl, by simp,
   increment_usage_adds_one_and_frames [] []
     ⟨"12-10-2026", some 2, some 5, some 7, some 9⟩ "12-10-2026" Tier.JR
     rfl (by simp)⟩

/-- C5: a feedback submission whose identifier is not a well-formed
ObjectId fails with the 400 InvalidIdentifier error, the Analysis
collection is unchanged, and zero store operations are attempted. -/
theorem invalid_id_rejected_before_store
    (docs : List AnalysisDoc) (id : String) (rating : Int) (notes : String)
    (h : isValidObjectId id = false) :
    submit_feedback true docs id rating notes =
      ⟨.error ⟨400, "Invalid analysis ID format"⟩, docs, 0⟩ := by
  simp [submit_feedback, h]

/-- C5 witness: the malformed identifier "abc" is rejected with 400 and
no store access. -/
theorem invalid_id_rejected_before_store_witness :
    isValidObjectId "abc" = false ∧
    submit_feedback true [sampleDoc] "abc" 5 "helpful" =
      ⟨.error ⟨400, "Invalid analysis ID format"⟩, [sampleDoc], 0⟩ :=
  ⟨rfl, invalid_id_rejected_before_store [sampleDoc] "abc" 5 "helpful" rfl⟩

/-- C4 counter-evidence: on a well-formed identifier that matches no
stored record, `submit_feedback` raises the 404 inside its own `try`
block and the generic `except Exception` clause swallows it, so the
request actually answers 500, not 404. -/
theorem notfound_surfaces_as_500 :
    submit_feedback true [] "0123456789abcdef01234567" 5 "helpful" =
      ⟨.error ⟨500, "Database operation failed: 404: Analysis not found"⟩,
       [], 1⟩ :=
  rfl

/-- C8: the JR and SR variants share one post-processing pipeline.  The
two cleaning functions agree on every response text, hence so does any
parse of the cleaned text, and a field key absent from the parsed JSON
object reads back as `none` rather than an error. -/
theorem jr_sr_postprocessing_equivalent :
    (∀ t, clean_openai_response t = clean_gemini_response t) ∧
    (∀ (loads : String → Option (List (String × String))) (t : String),
      loads (clean_openai_response t) = loads (clean_gemini_response t)) ∧
    (∀ (rd : List (String × String)) (k : String),
      k ∉ rd.map Prod.fst → jsonGet rd k = none) := by
  refine ⟨fun t => rfl, fun loads t => rfl, ?_⟩
  intro rd k hk
  have hall : ∀ p ∈ rd, ¬(p.1 == k) = true := by
    intro p hp hb
    exact hk ((beq_iff_eq.mp hb) ▸ List.mem_map_of_mem Prod.fst hp)
  simp [jsonGet, List.find?_eq_none.mpr hall]

/-- C8 witness: an absent key reads back as no value. -/
theorem jr_sr_postprocessing_equivalent_witness :
    ("observation" ∉ ([("note", "x")] : List (String × String)).map Prod.fst) ∧
    jsonGet [("note", "x")] "observation" = none :=
  ⟨by decide,
   jr_sr_postprocessing_equivalent.2.2 [("note", "x")] "observation"
     (by decide)⟩

/-- The feedback update never changes the id column of the collection. -/
theorem update_one_feedback_ids (docs : List AnalysisDoc) (id : String)
    (fb : Feedback) :
    (update_one_feedback docs id fb).1.map AnalysisDoc.id =
      docs.map AnalysisDoc.id := by
  induction docs with
  | nil => rfl
  | cons a rest ih =>
    by_cases h : a.id = id <;> simp [update_one_feedback, h, ih]

/-- When some document carries the target id, `update_one` matches. -/
theorem update_one_feedback_matched (docs : List AnalysisDoc) (id : String)
    (fb : Feedback) (h : ∃ d ∈ docs, d.id = id) :
    (update_one_feedback docs id fb).2 = 1 := by
  induction docs with
  | nil => simp at h
  | cons a rest ih =>
    by_cases ha : a.id = id
    · simp [update_one_feedback, ha]
    · rcases h with ⟨d, hd, hid⟩
      rcases List.mem_cons.mp hd with rfl | hmem
      · exact absurd hid ha
      · simp only [update_one_feedback, ha, if_false]
        exact ih ⟨d, hmem, hid⟩

/-- With distinct ids, every document of the updated collection that
carries the target id holds the submitted feedback. -/
theorem update_one_feedback_target (docs : List AnalysisDoc) (id : String)
    (fb : Feedback) (hnd : (docs.map AnalysisDoc.id).Nodup) :
    ∀ e ∈ (update_one_feedback docs id fb).1, e.id = id →
      e.feedback = some fb := by
  induction docs with
  | nil => intro e he; simp [update_one_feedback] at he
  | cons a rest ih =>
    rw [List.map_cons] at hnd
    obtain ⟨hna, hndr⟩ := List.nodup_cons.mp hnd
    intro e he heid
    by_cases ha : a.id = id
    · simp only [update_one_feedback, ha, if_true, List.mem_cons] at he
      rcases he with rfl | hmem
      · rfl
      · have hin : a.id ∈ rest.map AnalysisDoc.id := by
          rw [ha, ← heid]
          exact List.mem_map_of_mem AnalysisDoc.id hmem
        exact absurd hin hna
    · simp only [update_one_feedback, ha, if_false, List.mem_cons] at he
      rcases he with rfl | hmem
      · exact absurd heid ha
      · exact ih hndr e hmem heid

/-- A document whose id differs from the target survives the feedback
update unchanged. -/
theorem update_one_feedback_untouched (docs : List AnalysisDoc)
    (id : String) (fb : Feedback) :
    ∀ e ∈ docs, e.id ≠ id → e ∈ (update_one_feedback docs id fb).1 := by
  induction docs with
  | nil => simp
  | cons a rest ih =>
    intro e he hne
    by_cases ha : a.id = id
    · simp only [update_one_feedback, ha, if_true, List.mem_cons]
      rcases List.mem_cons.mp he with rfl | hmem
      · exact absurd ha hne
      · exact Or.inr hmem
    · simp only [update_one_feedback, ha, if_false, List.mem_cons]
      rcases List.mem_cons.mp he with rfl | hmem
      · exact Or.inl rfl
      · exact Or.inr (ih e hmem hne)

/-- C9: after a successful feedback submission on a stored record, the
history listing shows the entry with that identifier carrying exactly
the submitted rating and notes, and every other record that never
received feedback is still listed with feedback absent. -/
theorem feedback_history_roundtrip
    (docs : List AnalysisDoc) (d : AnalysisDoc) (rating : Int)
    (notes : String) (hnd : (docs.map AnalysisDoc.id).Nodup)
    (hvalid : isValidObjectId d.id = true) (hmem : d ∈ docs) :
    ∃ items : List HistoryItem,
      get_history true (submit_feedback true docs d.id rating notes).analysis =
        .ok ⟨true, "History retrieved successfully", items⟩ ∧
      (∃ env, (submit_feedback true docs d.id rating notes).response =
        .ok env ∧ env.status = true) ∧
      (∃ item ∈ items, item.id = d.id) ∧
      (∀ item ∈ items, item.id = d.id →
        item.feedback = some ⟨rating, notes⟩) ∧
      (∀ e ∈ docs, e.feedback = none → e.id ≠ d.id →
        ∃ item ∈ items, item.id = e.id ∧ item.feedback = none) := by
  have hm1 : (update_one_feedback docs d.id ⟨rating, notes⟩).2 = 1 :=
    update_one_feedback_matched docs d.id ⟨rating, notes⟩ ⟨d, hmem, rfl⟩
  refine ⟨((update_one_feedback docs d.id ⟨rating, notes⟩).1).map
    doc_to_history_item, ?_, ?_, ?_, ?_, ?_⟩
  · simp [get_history, submit_feedback, hvalid, hm1]
  · exact ⟨⟨true, "Feedback submitted successfully", ⟨d.id, rating, notes⟩⟩,
      by simp [submit_feedback, hvalid, hm1], rfl⟩
  · have hid : d.id ∈
        (update_one_feedback docs d.id ⟨rating, notes⟩).1.map AnalysisDoc.id := by
      rw [update_one_feedback_ids]
      exact List.mem_map_of_mem AnalysisDoc.id hmem
    rcases List.mem_map.mp hid with ⟨e, he, heid⟩
    exact ⟨doc_to_history_item e, List.mem_map_of_mem doc_to_history_item he,
      heid⟩
  · intro item hitem hid
    rcases List.mem_map.mp hitem with ⟨e, he, rfl⟩
    have hfb := update_one_feedback_target docs d.id ⟨rating, notes⟩ hnd e he
      (by simpa [doc_to_history_item] using hid)
    simpa [doc_to_history_item] using hfb
  · intro e he hfb hne
    have he2 := update_one_feedback_untouched docs d.id ⟨rating, notes⟩ e he
      hne
    exact ⟨doc_to_history_item e,
      List.mem_map_of_mem doc_to_history_item he2, rfl,
      by simp [doc_to_history_item, hfb]⟩

/-- C9 witness: submitting feedback on the sample record and listing
history shows that rating and those notes on it. -/
theorem feedback_history_roundtrip_witness :
    ([sampleDoc].map AnalysisDoc.id).Nodup ∧
    isValidObjectId sampleDoc.id = true ∧
    sampleDoc ∈ [sampleDoc] ∧
    ∃ items : List HistoryItem,
      get_history true
          (submit_feedback true [sampleDoc] sampleDoc.id 5 "helpful").analysis =
        .ok ⟨true, "History retrieved successfully", items⟩ ∧
      (∃ env, (submit_feedback true [sampleDoc] sampleDoc.id 5 "helpful").response =
        .ok env ∧ env.status = true) ∧
      (∃ item ∈ items, item.id = sampleDoc.id) ∧
      (∀ item ∈ items, item.id = sampleDoc.id →
        item.feedback = some ⟨5, "helpful"⟩) ∧
      (∀ e ∈ [sampleDoc], e.feedback = none → e.id ≠ sampleDoc.id →
        ∃ item ∈ items, item.id = e.id ∧ item.feedback = none) :=
  ⟨List.nodup_singleton _, rfl, List.mem_cons_self sampleDoc [],
   feedback_history_roundtrip [sampleDoc] sampleDoc 5 "helpful"
     (List.nodup_singleton _) rfl (List.mem_cons_self sampleDoc [])⟩

end PathoAi
